import Mathlib

/-!
Verification of the sgcache web gateway core (`sgcache/web/core.py`).

A shallow embedding of the request-handling core of the sgcache gateway:
the JSON-RPC dispatch engine (`json_api`), the streaming passthrough engine
(`passthrough` / `_process_passthrough_response`) and the generic binary
proxy (`proxy`), together with proofs of the specified properties.

Python values decoded from JSON are modelled by the inductive type `Json`;
Python dictionaries are modelled as insertion-ordered association lists
(keys unique, later assignments win), and Python exceptions are modelled by
`Except String _` carrying the exception class name.  Wall-clock time
(`time.time()` deltas) is abstracted by passing the already-formatted
elapsed-milliseconds text as a parameter, since no verified property
depends on its value.
-/

namespace SgCache

/-- A JSON value, as produced by `json.loads`.  Objects are
insertion-ordered association lists with unique keys (the shape `json.loads`
produces for a JSON text). -/
inductive Json where
  | null : Json
  | bool (b : Bool) : Json
  | num (n : Int) : Json
  | str (s : String) : Json
  | arr (elems : List Json) : Json
  | obj (fields : List (String × Json)) : Json

/-- Python truthiness (`bool(x)`) of a decoded JSON value: `None`, `False`,
`0`, `""`, `[]` and `{}` are falsy, everything else is truthy. -/
def Json.truthy : Json → Bool
  | .null => false
  | .bool b => b
  | .num n => n != 0
  | .str s => s != ""
  | .arr elems => !elems.isEmpty
  | .obj fields => !fields.isEmpty

mutual

/-- Python `str(x)` for a decoded JSON value.  Scalars follow CPython
exactly (`None`, `True`, `False`, decimal integers, the raw string); for
containers the textual form of `repr` is abstracted structurally, which no
verified property depends on. -/
def Json.pyStr : Json → String
  | .null => "None"
  | .bool true => "True"
  | .bool false => "False"
  | .num n => toString n
  | .str s => s
  | .arr elems => "[" ++ String.intercalate ", " (Json.pyStrList elems) ++ "]"
  | .obj fields => "\x7b" ++ String.intercalate ", " (Json.pyStrFields fields) ++ "\x7d"

/-- Python `str` applied to each element of a list. -/
def Json.pyStrList : List Json → List String
  | [] => []
  | v :: rest => v.pyStr :: Json.pyStrList rest

/-- Python `str` applied to each value of a dict. -/
def Json.pyStrFields : List (String × Json) → List String
  | [] => []
  | (_, v) :: rest => v.pyStr :: Json.pyStrFields rest

end

/-- Python `d.get(key)` on a dict decoded from JSON: `None` when the key is
absent.  Calling `.get` on a non-dict raises `AttributeError`. -/
def Json.pyGet : Json → String → Except String Json
  | .obj fields, key => .ok ((fields.lookup key).getD .null)
  | _, _ => .error "AttributeError"

/-- Python subscription `x[i]` with a non-negative integer index `i`.
Lists and strings index positionally (`IndexError` out of range); a dict
decoded from JSON has only string keys, so an integer subscript raises
`KeyError`; other values raise `TypeError`. -/
def Json.pyIndex : Json → Nat → Except String Json
  | .arr elems, i =>
      match elems[i]? with
      | some v => .ok v
      | none => .error "IndexError"
  | .str s, i =>
      match s.toList[i]? with
      | some c => .ok (.str (String.singleton c))
      | none => .error "IndexError"
  | .obj _, _ => .error "KeyError"
  | _, _ => .error "TypeError"

/-- Python `len(x)`: defined for lists, dicts and strings, `TypeError`
otherwise. -/
def Json.pyLen : Json → Except String Nat
  | .arr elems => .ok elems.length
  | .obj fields => .ok fields.length
  | .str s => .ok s.length
  | _ => .error "TypeError"

/-- Escape one character for a JSON string literal, as `json.dumps` does. -/
def jsonEscapeChar (c : Char) : String :=
  if c = '"' then "\\\""
  else if c = '\\' then "\\\\"
  else if c = '\n' then "\\n"
  else if c = '\r' then "\\r"
  else if c = '\t' then "\\t"
  else String.singleton c

/-- Escape a string for inclusion in a JSON text. -/
def jsonEscape (s : String) : String :=
  String.join (s.toList.map jsonEscapeChar)

mutual

/-- CPython `json.dumps(x)` with default separators: fields in insertion order,
items joined by `", "`, keys and values joined by `": "`. -/
def Json.dumps : Json → String
  | .null => "null"
  | .bool true => "true"
  | .bool false => "false"
  | .num n => toString n
  | .str s => "\"" ++ jsonEscape s ++ "\""
  | .arr elems => "[" ++ String.intercalate ", " (Json.dumpsList elems) ++ "]"
  | .obj fields => "\x7b" ++ String.intercalate ", " (Json.dumpsFields fields) ++ "\x7d"

/-- CPython `json.dumps` applied to each element of a list. -/
def Json.dumpsList : List Json → List String
  | [] => []
  | v :: rest => v.dumps :: Json.dumpsList rest

/-- One `"key": value` item per dict field, in insertion order. -/
def Json.dumpsFields : List (String × Json) → List String
  | [] => []
  | (k, v) :: rest => ("\"" ++ jsonEscape k ++ "\": " ++ v.dumps) :: Json.dumpsFields rest

end

/-- Insert a field into a key-sorted field list, keeping it sorted
(Python string comparison: code-point order). -/
def insertField (f : String × Json) : List (String × Json) → List (String × Json)
  | [] => [f]
  | g :: rest => if f.1 ≤ g.1 then f :: g :: rest else g :: insertField f rest

/-- Sort dict fields by key, as `sort_keys=True` does. -/
def sortFields : List (String × Json) → List (String × Json)
  | [] => []
  | f :: rest => insertField f (sortFields rest)

mutual

/-- Recursively sort every object's fields by key (the effect of
`sort_keys=True` on the whole document). -/
def Json.sortKeys : Json → Json
  | .null => .null
  | .bool b => .bool b
  | .num n => .num n
  | .str s => .str s
  | .arr elems => .arr (Json.sortKeysList elems)
  | .obj fields => .obj (sortFields (Json.sortKeysFields fields))

/-- Apply `sortKeys` to each element of a list. -/
def Json.sortKeysList : List Json → List Json
  | [] => []
  | v :: rest => v.sortKeys :: Json.sortKeysList rest

/-- Apply `sortKeys` to each value of a dict. -/
def Json.sortKeysFields : List (String × Json) → List (String × Json)
  | [] => []
  | (k, v) :: rest => (k, v.sortKeys) :: Json.sortKeysFields rest

end

/-- Exactly `depth * 4` spaces, the indentation CPython emits for `indent=4`. -/
def jsonIndent (depth : Nat) : String :=
  String.join (List.replicate (depth * 4) " ")

mutual

/-- CPython 2 `json.dumps(x, indent=4)` under separators `(", ", ": ")`:
non-empty containers put each item on its own indented line, items joined by
`", \n"` plus the indentation, scalars as in `dumps`.  Key sorting is done
beforehand by `Json.sortKeys`. -/
def Json.dumpsIndent (depth : Nat) : Json → String
  | .null => "null"
  | .bool true => "true"
  | .bool false => "false"
  | .num n => toString n
  | .str s => "\"" ++ jsonEscape s ++ "\""
  | .arr [] => "[]"
  | .arr (v :: rest) =>
      "[\n" ++ jsonIndent (depth + 1) ++
        String.intercalate (", \n" ++ jsonIndent (depth + 1))
          (Json.dumpsIndentList (depth + 1) (v :: rest)) ++
        "\n" ++ jsonIndent depth ++ "]"
  | .obj [] => "\x7b\x7d"
  | .obj (f :: rest) =>
      "\x7b\n" ++ jsonIndent (depth + 1) ++
        String.intercalate (", \n" ++ jsonIndent (depth + 1))
          (Json.dumpsIndentFields (depth + 1) (f :: rest)) ++
        "\n" ++ jsonIndent depth ++ "\x7d"

/-- Apply `dumpsIndent` to each element of a list. -/
def Json.dumpsIndentList (depth : Nat) : List Json → List String
  | [] => []
  | v :: rest => v.dumpsIndent depth :: Json.dumpsIndentList depth rest

/-- One `"key": value` item per dict field. -/
def Json.dumpsIndentFields (depth : Nat) : List (String × Json) → List String
  | [] => []
  | (k, v) :: rest =>
      ("\"" ++ jsonEscape k ++ "\": " ++ v.dumpsIndent depth) ::
        Json.dumpsIndentFields depth rest

end

/-- CPython `json.dumps(x, sort_keys=True, indent=4)`: sort keys recursively, then
pretty-print. -/
def Json.dumpsPretty (v : Json) : String :=
  Json.dumpsIndent 0 v.sortKeys

/-! ## HTTP headers and Python dict operations -/

/-- A header list: ordered name/value pairs. -/
abbrev Headers := List (String × String)

/-- Python `str.lower()` on an (ASCII) header name, written over the
character list so it evaluates. -/
def strToLower (s : String) : String :=
  (s.toList.map Char.toLower).asString

/-- werkzeug's hop-by-hop header names (`werkzeug.http.HOP_BY_HOP_HEADERS`),
matched case-insensitively. -/
def HOP_BY_HOP_HEADERS : List String :=
  ["connection", "keep-alive", "proxy-authenticate", "proxy-authorization",
   "te", "trailer", "transfer-encoding", "upgrade"]

/-- Model of `werkzeug.http.is_hop_by_hop_header`. -/
def is_hop_by_hop_header (name : String) : Bool :=
  HOP_BY_HOP_HEADERS.contains (strToLower name)

/-- Model of `werkzeug.http.remove_hop_by_hop_headers`: drop every hop-by-hop entry
from a header list (the in-place slice assignment, modelled functionally). -/
def remove_hop_by_hop_headers (headers : Headers) : Headers :=
  headers.filter fun kv => !is_hop_by_hop_header kv.1

/-- One step of Python `dict(pairs)` construction: a later value for an
existing key overwrites in place, a new key is appended. -/
def dictInsert (d : Headers) (k v : String) : Headers :=
  if d.any (fun kv => kv.1 = k) then
    d.map (fun kv => if kv.1 = k then (k, v) else kv)
  else
    d ++ [(k, v)]

/-- Python `dict(pairs)`: fold the pairs left to right, later values for a
repeated key winning. -/
def pyDict (items : Headers) : Headers :=
  items.foldl (fun d kv => dictInsert d kv.1 kv.2) []

/-- Python `d.pop(k)` on a dict (unique keys): `none` models the `KeyError`
raised when the key is absent. -/
def pyPop (d : Headers) (k : String) : Option Headers :=
  if d.any (fun kv => kv.1 = k) then some (d.filter fun kv => kv.1 ≠ k) else none

/-! ## Chunked streaming -/

/-- Structural worker for `chunksOf`: `fuel` bounds the number of chunks
(any `fuel ≥` the input length is enough, since every step with `n ≠ 0`
consumes at least one character). -/
def chunksOfFuel (n : Nat) : Nat → List Char → List (List Char)
  | _, [] => []
  | 0, _ :: _ => []
  | fuel + 1, c :: rest =>
      if n = 0 then []
      else (c :: rest).take n :: chunksOfFuel n fuel ((c :: rest).drop n)

/-- Split a character list into consecutive chunks of `n` characters (the
last chunk possibly shorter), as `Response.iter_content(n)` yields a body. -/
def chunksOf (n : Nat) (cs : List Char) : List (List Char) :=
  chunksOfFuel n cs.length cs

/-- A body string as the list of chunks `iter_content(n)` yields. -/
def stringChunks (n : Nat) (body : String) : List String :=
  (chunksOf n body.toList).map List.asString

/-! ## Requests and responses -/

/-- The inbound HTTP request, as the Flask handlers observe it. -/
structure InboundRequest where
  /-- Flask `request.path`. -/
  path : String
  /-- Flask `request.method`. -/
  httpMethod : String
  /-- Flask `request.headers` as ordered name/value pairs, names as the WSGI
  layer reconstructs them (`Host`, `Connection`, ...). -/
  headers : Headers
  /-- Flask `request.data`: the raw request body. -/
  data : String
  /-- Flask `request.args`: the decoded query parameters. -/
  args : Headers
  /-- The outcome of `json.loads(request.data)`: `none` models the
  `ValueError` raised on a syntactically invalid body. -/
  parsed : Option Json

/-- An outbound request issued through `http_session` to the upstream. -/
structure OutboundRequest where
  httpMethod : String
  url : String
  headers : Headers
  data : String
  params : Headers
  stream : Bool
  deriving Repr, DecidableEq

/-- The upstream's answer to an outbound request. -/
structure UpstreamResponse where
  status : Nat
  headers : Headers
  /-- The full body; `res.text` and `res.iter_content` both read it. -/
  body : String

/-- A Flask `(body, status, headers)` response tuple. -/
structure RespTuple where
  body : String
  status : Nat
  headers : Headers
  deriving Repr, DecidableEq

/-- What a route handler produces on the wire: an uncaught exception
(carrying its class name), a response tuple, or a streamed `Response` with
a mimetype. -/
inductive WireResult where
  | exn (name : String)
  | tuple (r : RespTuple)
  | streamed (chunks : List String) (mimetype : String)
  deriving Repr, DecidableEq

/-- A log line at its level. -/
inductive LogEvent where
  | info (msg : String)
  | warning (msg : String)
  deriving Repr, DecidableEq

/-! ## Streaming passthrough engine -/

/-- Generator `_process_passthrough_response`: yield every chunk of
`res.iter_content(8192)` while appending it to `buffer_` (the captured
buffer feeds the currently unimplemented analysis hook).  Returns the
yielded chunks and the captured buffer. -/
def process_passthrough_response : List String → List String × List String
  | [] => ([], [])
  | c :: rest =>
      let p := process_passthrough_response rest
      (c :: p.1, c :: p.2)

/-- Function `passthrough()`: drop the gateway-side `Host` from a dict of the
inbound headers (`dict.pop`, `KeyError` when absent), post the original
body to `FALLBACK_URL = fallback ++ "/api3/json"` with streaming enabled,
then relay: status 200 streams the body in 8192-byte chunks as
`application/json`; any other status returns `res.text` with that status as
a single tuple.  Returns the wire result together with the outbound request
issued; an error is an uncaught exception raised before any upstream call. -/
def passthrough (fallback : String) (req : InboundRequest) (up : UpstreamResponse) :
    Except String (WireResult × OutboundRequest) :=
  match pyPop (pyDict req.headers) "Host" with
  | none => .error "KeyError"
  | some headers =>
      let out : OutboundRequest :=
        { httpMethod := "POST", url := fallback ++ "/api3/json", headers := headers,
          data := req.data, params := [], stream := true }
      if up.status = 200 then
        .ok (.streamed (process_passthrough_response (stringChunks 8192 up.body)).1
              "application/json", out)
      else
        .ok (.tuple ⟨up.body, up.status, [("Content-Type", "application/json")]⟩, out)

/-! ## Binary proxy -/

/-- The `Response` the binary proxy constructs. -/
structure ProxyResponse where
  chunks : List String
  status : Nat
  headers : Headers
  directPassthrough : Bool
  deriving Repr, DecidableEq

/-- Route `proxy(path)`: forward to `fallback ++ request.path`, headers minus
`Host` (case-insensitive) and minus hop-by-hop, query parameters and body
(streamed via `_StreamReadWrapper`) unchanged; relay the upstream status,
its headers minus hop-by-hop, and the body in 8192-byte chunks with
`direct_passthrough=True`. -/
def proxy (fallback : String) (req : InboundRequest) (up : UpstreamResponse) :
    OutboundRequest × ProxyResponse :=
  let url := fallback ++ req.path
  let headers := remove_hop_by_hop_headers
    (req.headers.filter fun kv => strToLower kv.1 ≠ "host")
  let out : OutboundRequest :=
    { httpMethod := req.httpMethod, url := url, headers := pyDict headers,
      data := req.data, params := req.args, stream := true }
  let respHeaders := remove_hop_by_hop_headers up.headers
  (out,
   { chunks := stringChunks 8192 up.body, status := up.status,
     headers := respHeaders, directPassthrough := true })

/-! ## RPC dispatch engine -/

/-- What an invocation of a registered api3 method does: return a dict, a
response tuple, some other value (which makes the engine raise `TypeError`),
or raise a `Fault` / `Passthrough` exception.  `Fault` carries
`e.code` and `e.args[0]` (its message) plus `e.__class__.__name__`;
`Passthrough` carries `str(e)` (its reason) plus the class name (the
exception classes themselves live in `sgcache.exceptions`, outside this
module; the spec fixes `Fault = \x7bcode: integer, message: string\x7d` and
`PassthroughSignal` as a reason-carrying control signal). -/
inductive HandlerResult where
  | retDict (fields : List (String × Json))
  | retTuple (r : RespTuple)
  | retOther (typeName : String)
  | raiseFault (className : String) (code : Int) (message : String)
  | raisePassthrough (className : String) (reason : String)

/-- A registered api3 method: takes `method_params`. -/
abbrev Handler := Json → HandlerResult

/-- Registry `_api3_methods`: the method registry, an immutable name → handler map
populated at import time. -/
abbrev Api3Methods := String → Option Handler

/-- Lookup `_api3_methods[method_name]`: dict subscription with an arbitrary
decoded value as key — an unhashable key (list or dict) raises `TypeError`;
a hashable non-name key is simply absent (`none`, the `KeyError` branch). -/
def registryLookup (methods : Api3Methods) : Json → Except String (Option Handler)
  | .str s => .ok (methods s)
  | .arr _ => .error "TypeError"
  | .obj _ => .error "TypeError"
  | _ => .ok none

/-- Lines 71–72: `auth_params = params[0] if params else \x7b\x7d` and
`method_params = params[1] if len(params) > 1 else \x7b\x7d`. -/
def extractParams (params : Json) : Except String (Json × Json) := do
  let auth_params ← if params.truthy then params.pyIndex 0 else pure (Json.obj [])
  let n ← params.pyLen
  let method_params ← if n > 1 then params.pyIndex 1 else pure (Json.obj [])
  return (auth_params, method_params)

/-- Lines 77–91: build the headline chunk list and join it with single
spaces.  Also returns `entity_type` (`method_params.get('type')`), which
the post-response timing log reuses. -/
def headline (method_name auth_params method_params : Json) :
    Except String (String × Json) := do
  let chunks0 := ["Starting " ++ method_name.pyStr]
  let entity_type ← method_params.pyGet "type"
  let chunks1 :=
    if entity_type.truthy then chunks0 ++ ["on " ++ entity_type.pyStr] else chunks0
  let script_name ← auth_params.pyGet "script_name"
  let chunks ←
    if script_name.truthy then do
      let c := chunks1 ++ ["by script \"" ++ script_name.pyStr ++ "\""]
      let sudo_as_login ← auth_params.pyGet "sudo_as_login"
      pure (if sudo_as_login.truthy then
              c ++ ["as user \"" ++ sudo_as_login.pyStr ++ "\""]
            else c)
    else do
      let user_login ← auth_params.pyGet "user_login"
      pure (if user_login.truthy then
              chunks1 ++ ["by user \"" ++ user_login.pyStr ++ "\""]
            else chunks1)
  return (String.intercalate " " chunks, entity_type)

/-- The value bound to `res_data` when the post-response timing log runs:
either a dict or the returned response tuple. -/
inductive ResData where
  | dict (fields : List (String × Json))
  | tup (r : RespTuple)

/-- Lines 131–134: `'Returned %sin %.1fms'`; when `res_data` contains an
`entities` entry the count and entity type are interpolated first.  On a
tuple, `'entities' in res_data` is element membership, and a hit would make
the string subscription raise `TypeError`. -/
def timingLog : ResData → Json → String → Except String String
  | .dict fields, entity_type, elapsed =>
      match fields.lookup "entities" with
      | some v => do
          let n ← v.pyLen
          pure ("Returned " ++ toString n ++ " " ++ entity_type.pyStr ++ "s " ++
            "in " ++ elapsed ++ "ms")
      | none => pure ("Returned in " ++ elapsed ++ "ms")
  | .tup r, _, elapsed =>
      if r.body = "entities" then .error "TypeError"
      else pure ("Returned in " ++ elapsed ++ "ms")

/-- Everything observable about one `json_api` run: the wire result, the
emitted log lines, whether a registered handler was invoked, the outbound
request issued to the upstream (if any), and whether
`log_globals.skip_http_log` was set. -/
structure ApiOutcome where
  result : WireResult
  logs : List LogEvent
  invoked : Bool
  forwarded : Option OutboundRequest
  skipHttpLog : Bool
  deriving Repr, DecidableEq

/-- The `('', 400, [])` early return for a malformed envelope. -/
def malformed400 : ApiOutcome :=
  { result := .tuple ⟨"", 400, []⟩, logs := [], invoked := false,
    forwarded := none, skipHttpLog := false }

/-- Lines 130–137, shared by every branch that falls out of the
`try`/`except`: emit the timing line (an exception in it propagates) and set
`skip_http_log`. -/
def finishRequest (result : WireResult) (branchLogs : List LogEvent)
    (invoked : Bool) (forwarded : Option OutboundRequest)
    (res_data : ResData) (entity_type : Json) (elapsed : String) : ApiOutcome :=
  match timingLog res_data entity_type elapsed with
  | .error e =>
      { result := .exn e, logs := branchLogs, invoked := invoked,
        forwarded := forwarded, skipHttpLog := false }
  | .ok msg =>
      { result := result, logs := branchLogs ++ [.info msg], invoked := invoked,
        forwarded := forwarded, skipHttpLog := true }

/-- An uncaught exception propagating out of `json_api` (Flask turns it
into a 500, not a 400). -/
def uncaughtOutcome (name : String) (logs : List LogEvent) (invoked : Bool)
    (forwarded : Option OutboundRequest) : ApiOutcome :=
  { result := .exn name, logs := logs, invoked := invoked,
    forwarded := forwarded, skipHttpLog := false }

/-- Lines 99–128: `method(method_params)` inside the `try`, and the
translation of its outcome: dict → JSON 200; tuple → verbatim; any other
value → `raise TypeError` (uncaught); `Fault` → warning log plus JSON 200
error payload; `Passthrough` → info log plus delegation to the passthrough
engine.  Each non-raising branch then runs the shared timing epilogue. -/
def api3_invoke (fallback : String) (req : InboundRequest)
    (up : UpstreamResponse) (elapsed : String) (method_name : Json)
    (method_params : Json) (hl : String) (entity_type : Json)
    (method : Handler) : ApiOutcome :=
  let logs0 : List LogEvent := [.info hl]
  match method method_params with
  | .retDict d =>
      finishRequest
        (.tuple ⟨(Json.obj d).dumps, 200, [("Content-Type", "application/json")]⟩)
        logs0 true none (.dict d) entity_type elapsed
  | .retTuple r =>
      finishRequest (.tuple r) logs0 true none (.tup r) entity_type elapsed
  | .retOther _ => uncaughtOutcome "TypeError" logs0 true none
  | .raiseFault className code message =>
      let logs1 := logs0 ++
        [.warning (className ++ " (" ++ toString code ++ "): " ++ message)]
      let res_data : List (String × Json) :=
        [("exception", .bool true), ("error_code", .num code),
         ("message", .str message)]
      finishRequest
        (.tuple ⟨(Json.obj res_data).dumps, 200,
          [("Content-Type", "application/json")]⟩)
        logs1 true none (.dict res_data) entity_type elapsed
  | .raisePassthrough className reason =>
      let logs1 := logs0 ++
        [.info ("Passing through " ++ method_name.pyStr ++ " due to " ++
          className ++ "(\"" ++ reason ++ "\"):" ++
          (if method_params.truthy then "\n" else "") ++
          (if method_params.truthy then method_params.dumpsPretty else ""))]
      match passthrough fallback req up with
      | .error e => uncaughtOutcome e logs1 true none
      | .ok (w, out) =>
          finishRequest w logs1 true (some out) (.dict []) entity_type elapsed

/-- Lines 93–97 plus the handler invocation: look the method name up in the
registry; `KeyError` → info log and `return passthrough()` (no timing
epilogue, `skip_http_log` untouched); found → invoke it. -/
def api3_route (methods : Api3Methods) (fallback : String)
    (req : InboundRequest) (up : UpstreamResponse) (elapsed : String)
    (method_name : Json) (method_params : Json) (hl : String)
    (entity_type : Json) : ApiOutcome :=
  let logs0 : List LogEvent := [.info hl]
  match registryLookup methods method_name with
  | .error e => uncaughtOutcome e logs0 false none
  | .ok none =>
      let logs1 := logs0 ++
        [.info ("Passing through \"" ++ method_name.pyStr ++
          "\" due to unknown API method")]
      (match passthrough fallback req up with
       | .error e => uncaughtOutcome e logs1 false none
       | .ok (w, out) =>
           { result := w, logs := logs1, invoked := false,
             forwarded := some out, skipHttpLog := false })
  | .ok (some method) =>
      api3_invoke fallback req up elapsed method_name method_params hl
        entity_type method

/-- Lines 77–91: emit the headline (an `AttributeError` from `.get` on a
non-dict propagates), then route. -/
def api3_headline (methods : Api3Methods) (fallback : String)
    (req : InboundRequest) (up : UpstreamResponse) (elapsed : String)
    (method_name auth_params method_params : Json) : ApiOutcome :=
  match headline method_name auth_params method_params with
  | .error e => uncaughtOutcome e [] false none
  | .ok (hl, entity_type) =>
      api3_route methods fallback req up elapsed method_name method_params hl
        entity_type

/-- Lines 71–72 inside the `try`: split `params` into `auth_params` and
`method_params`; a `KeyError` is caught (→ 400), anything else propagates. -/
def api3_params (methods : Api3Methods) (fallback : String)
    (req : InboundRequest) (up : UpstreamResponse) (elapsed : String)
    (method_name params : Json) : ApiOutcome :=
  match extractParams params with
  | .error e =>
      if e = "KeyError" then malformed400 else uncaughtOutcome e [] false none
  | .ok (auth_params, method_params) =>
      api3_headline methods fallback req up elapsed method_name auth_params
        method_params

/-- Lines 68–74: `payload['method_name']` and `payload['params']`; a
missing key raises `KeyError`, caught → `('', 400, [])`. -/
def api3_envelope (methods : Api3Methods) (fallback : String)
    (req : InboundRequest) (up : UpstreamResponse) (elapsed : String)
    (fields : List (String × Json)) : ApiOutcome :=
  match fields.lookup "method_name", fields.lookup "params" with
  | some method_name, some params =>
      api3_params methods fallback req up elapsed method_name params
  | _, _ => malformed400

/-- Lines 65–66: a decoded payload that is not a mapping → `('', 400, [])`. -/
def api3_payload (methods : Api3Methods) (fallback : String)
    (req : InboundRequest) (up : UpstreamResponse) (elapsed : String)
    (payload : Json) : ApiOutcome :=
  match payload with
  | .obj fields => api3_envelope methods fallback req up elapsed fields
  | _ => malformed400

/-- View `json_api()` (lines 59–137): `json.loads(request.data)` (a syntactically
invalid body raises `ValueError`, uncaught), then the staged dispatch above.
`elapsed` is the formatted wall-clock delta, `'%.1f' % elapsed_ms`. -/
def json_api (methods : Api3Methods) (fallback : String) (req : InboundRequest)
    (up : UpstreamResponse) (elapsed : String) : ApiOutcome :=
  match req.parsed with
  | none => uncaughtOutcome "ValueError" [] false none
  | some payload => api3_payload methods fallback req up elapsed payload

/-! ## Auxiliary definitions for the verified properties -/

/-- Python `d.get(key)` specialised to a dict that is known to be a mapping:
the value, or `null` (Python `None`) when absent. -/
def objGet (fields : List (String × Json)) (key : String) : Json :=
  (fields.lookup key).getD .null

/-- Modelled from the spec (§4.3 and §8, the outbound-equality property):
the request a client would send to the upstream `/api3/json` endpoint
directly — a streaming `POST` of the same body with the same headers,
except `Host`, which names the target server and is supplied by the HTTP
stack rather than copied from the caller. -/
def directClientRequest (fallback : String) (clientHeaders : Headers)
    (body : String) : OutboundRequest :=
  { httpMethod := "POST", url := fallback ++ "/api3/json",
    headers := (pyDict clientHeaders).filter fun kv => kv.1 ≠ "Host",
    data := body, params := [], stream := true }

/-! ## Concrete fixtures used by the witnesses -/

/-- An upstream answering 200 with a JSON body. -/
def sampleUp200 : UpstreamResponse :=
  { status := 200, headers := [("Content-Type", "application/json")],
    body := "UPSTREAM-BODY" }

/-- An upstream answering a non-200 status. -/
def sampleUp500 : UpstreamResponse :=
  { status := 500, headers := [("Content-Type", "text/html")],
    body := "upstream error" }

/-- A syntactically well-formed envelope whose `params` list is present but
has fewer than two elements. -/
def shortParamsReq : InboundRequest :=
  { path := "/api3/json", httpMethod := "POST",
    headers := [("Host", "cache.example"), ("Accept", "application/json")],
    data := "BODY", args := [],
    parsed := some (.obj [("method_name", .str "mystery"), ("params", .arr [])]) }

/-- A request whose body is not valid JSON (`json.loads` raises). -/
def invalidJsonReq : InboundRequest :=
  { path := "/api3/json", httpMethod := "POST",
    headers := [("Host", "cache.example")],
    data := "not json \x7b", args := [], parsed := none }

/-- A request whose payload is a mapping without `method_name`. -/
def missingMethodReq : InboundRequest :=
  { path := "/api3/json", httpMethod := "POST",
    headers := [("Host", "cache.example")],
    data := "BODY", args := [],
    parsed := some (.obj [("params", .arr [.obj [], .obj []])]) }

/-- A request whose payload decodes to a non-mapping. -/
def nonDictReq : InboundRequest :=
  { path := "/api3/json", httpMethod := "POST",
    headers := [("Host", "cache.example")],
    data := "3", args := [], parsed := some (.num 3) }

/-- A request carrying a hop-by-hop header next to `Host`. -/
def connectionHeaderReq : InboundRequest :=
  { path := "/api3/json", httpMethod := "POST",
    headers := [("Host", "cache.example"), ("Connection", "keep-alive"),
      ("Accept", "application/json")],
    data := "BODY", args := [],
    parsed := some (.obj [("method_name", .str "info"), ("params", .arr [.obj [], .obj []])]) }

/-- A well-formed `find` envelope on entity type `Shot`. -/
def findShotReq : InboundRequest :=
  { path := "/api3/json", httpMethod := "POST",
    headers := [("Host", "cache.example"), ("Accept", "application/json")],
    data := "BODY", args := [],
    parsed := some (.obj [("method_name", .str "find"),
      ("params", .arr [.obj [("script_name", .str "s1")],
        .obj [("type", .str "Shot")]])]) }

/-- A request with no `Host` header at all. -/
def noHostReq : InboundRequest :=
  { path := "/api3/json", httpMethod := "POST",
    headers := [("Accept", "application/json")],
    data := "BODY", args := [],
    parsed := some (.obj [("method_name", .str "info"), ("params", .arr [.obj [], .obj []])]) }

/-- A binary upload request with query parameters and hop-by-hop headers. -/
def uploadReq : InboundRequest :=
  { path := "/upload/attachment.bin", httpMethod := "POST",
    headers := [("Host", "cache.example"), ("Transfer-Encoding", "chunked"),
      ("X-Custom", "yes")],
    data := "FILEDATA", args := [("filename", "attachment.bin")],
    parsed := none }

/-- A registry exposing one method `op` that raises `Fault(42, "bad state")`. -/
def faultMethods : Api3Methods :=
  fun name => if name = "op" then
    some (fun _ => .raiseFault "Fault" 42 "bad state")
  else none

/-- An `op` envelope for the fault registry. -/
def faultReq : InboundRequest :=
  { path := "/api3/json", httpMethod := "POST",
    headers := [("Host", "cache.example")],
    data := "BODY", args := [],
    parsed := some (.obj [("method_name", .str "op"),
      ("params", .arr [.obj [("script_name", .str "s1")],
        .obj [("type", .str "Asset")]])]) }

/-- A registry exposing one method `op` that raises
`Passthrough("unsupported filter")`. -/
def signalMethods : Api3Methods :=
  fun name => if name = "op" then
    some (fun _ => .raisePassthrough "Passthrough" "unsupported filter")
  else none

/-- A binary upstream answering 201 with one hop-by-hop and one end-to-end
header. -/
def binaryUp : UpstreamResponse :=
  { status := 201,
    headers := [("Content-Type", "application/octet-stream"),
      ("Transfer-Encoding", "chunked"), ("X-Extra", "1")],
    body := "PAYLOAD" }

/-! ## Helper lemmas -/

theorem dictInsert_of_not_mem (d : Headers) (k v : String)
    (h : k ∉ d.map Prod.fst) : dictInsert d k v = d ++ [(k, v)] := by
  unfold dictInsert
  rw [if_neg]
  simp only [List.any_eq_true, decide_eq_true_eq, not_exists]
  intro kv hkv
  exact h (hkv.2 ▸ List.mem_map_of_mem Prod.fst hkv.1)

theorem foldl_dictInsert_of_nodup (l : Headers) : ∀ acc : Headers,
    (l.map Prod.fst).Nodup →
    (∀ k, k ∈ l.map Prod.fst → k ∉ acc.map Prod.fst) →
    l.foldl (fun d kv => dictInsert d kv.1 kv.2) acc = acc ++ l := by
  induction l with
  | nil => intro acc _ _; simp
  | cons kv rest ih =>
    intro acc hnd hdisj
    simp only [List.foldl_cons]
    rw [dictInsert_of_not_mem _ _ _ (hdisj kv.1 (by simp))]
    rw [ih (acc ++ [kv]) (by simpa using hnd.of_cons)]
    · simp
    · intro k hk
      simp only [List.map_append, List.mem_append, not_or]
      constructor
      · exact hdisj k (by simp only [List.map_cons, List.mem_cons]; exact Or.inr hk)
      · simp only [List.map_cons, List.map_nil, List.mem_singleton]
        intro hc
        simp only [List.map_cons, List.nodup_cons] at hnd
        exact hnd.1 (hc ▸ hk)

/-- Python `dict(pairs)` is the identity on a pair list whose keys are already
unique. -/
theorem pyDict_of_nodup (l : Headers) (h : (l.map Prod.fst).Nodup) :
    pyDict l = l := by
  unfold pyDict
  rw [foldl_dictInsert_of_nodup l [] h (by simp)]
  simp

theorem chunksOfFuel_flatten (n : Nat) (hn : n ≠ 0) :
    ∀ fuel (cs : List Char), cs.length ≤ fuel →
      (chunksOfFuel n fuel cs).flatten = cs := by
  intro fuel
  induction fuel with
  | zero =>
    intro cs hl
    have : cs = [] := List.eq_nil_of_length_eq_zero (Nat.le_zero.mp hl)
    simp [this, chunksOfFuel]
  | succ m ih =>
    intro cs hl
    match cs with
    | [] => simp [chunksOfFuel]
    | c :: rest =>
      rw [chunksOfFuel, if_neg hn]
      simp only [List.flatten_cons]
      rw [ih ((c :: rest).drop n) (by simp at hl ⊢; omega)]
      exact List.take_append_drop n (c :: rest)

/-- Splitting into chunks loses nothing: the chunks concatenate back to the
original body. -/
theorem chunksOf_flatten (n : Nat) (hn : n ≠ 0) (cs : List Char) :
    (chunksOf n cs).flatten = cs :=
  chunksOfFuel_flatten n hn cs.length cs le_rfl

theorem chunksOfFuel_length_le (n : Nat) :
    ∀ fuel (cs : List Char), ∀ c ∈ chunksOfFuel n fuel cs, c.length ≤ n := by
  intro fuel
  induction fuel with
  | zero =>
    intro cs c hc
    cases cs <;> simp [chunksOfFuel] at hc
  | succ m ih =>
    intro cs c hc
    match cs with
    | [] => simp [chunksOfFuel] at hc
    | a :: rest =>
      rw [chunksOfFuel] at hc
      by_cases hn : n = 0
      · simp [if_pos hn] at hc
      · rw [if_neg hn] at hc
        rcases List.mem_cons.mp hc with h | h
        · simp only [h]
          exact List.length_take_le n (a :: rest)
        · exact ih ((a :: rest).drop n) c h

/-- Every chunk respects the fixed chunk size. -/
theorem chunksOf_length_le (n : Nat) (cs : List Char) :
    ∀ c ∈ chunksOf n cs, c.length ≤ n :=
  chunksOfFuel_length_le n cs.length cs

/-- The streamed chunks of a body concatenate back to the body text. -/
theorem stringChunks_flatten (n : Nat) (hn : n ≠ 0) (body : String) :
    ((stringChunks n body).map String.toList).flatten = body.toList := by
  unfold stringChunks
  rw [List.map_map]
  have : (String.toList ∘ List.asString) = id := by
    funext l
    exact List.toList_asString l
  rw [this, List.map_id]
  exact chunksOf_flatten n hn body.toList

/-- Every streamed chunk respects the fixed chunk size. -/
theorem stringChunks_length_le (n : Nat) (body : String) :
    ∀ c ∈ stringChunks n body, c.length ≤ n := by
  unfold stringChunks
  intro c hc
  rcases List.mem_map.mp hc with ⟨l, hl, rfl⟩
  rw [List.length_asString]
  exact chunksOf_length_le n body.toList l hl

/-- The passthrough response generator yields exactly the chunks it
receives and captures exactly what it yields. -/
theorem process_passthrough_response_eq (chunks : List String) :
    process_passthrough_response chunks = (chunks, chunks) := by
  induction chunks with
  | nil => rfl
  | cons c rest ih => simp [process_passthrough_response, ih]

theorem intercalate_go_cons (acc sep : String) (b : String) (l : List String) :
    String.intercalate.go acc sep (b :: l) =
      String.intercalate.go (acc ++ sep ++ b) sep l := rfl

theorem intercalate_go_nil (acc sep : String) :
    String.intercalate.go acc sep [] = acc := rfl

theorem str_merge (a b c : String) (h : a ++ b = c) (x : String) :
    a ++ (b ++ x) = c ++ x := by rw [← String.append_assoc, h]

/-- On a dict `method_params`, the headline construction always succeeds and
returns `method_params.get('type')` as the reusable entity type. -/
theorem headline_obj_ok (mn : Json) (aps mps : List (String × Json)) :
    ∃ hl, headline mn (.obj aps) (.obj mps) = .ok (hl, objGet mps "type") := by
  unfold headline objGet
  simp only [Json.pyGet, bind, Except.bind, pure, Except.pure]
  split <;> split <;> exact ⟨_, rfl⟩

/-- A two-element `params` pair of mappings splits cleanly. -/
theorem extractParams_pair (aps mps : List (String × Json)) :
    extractParams (.arr [.obj aps, .obj mps]) = .ok (.obj aps, .obj mps) := by
  simp [extractParams, Json.truthy, Json.pyIndex, Json.pyLen, bind, Except.bind,
    pure, Except.pure]

/-- Any well-formed `[auth, method]` envelope reduces the dispatch engine to
the routing stage, with some successfully built headline. -/
theorem json_api_reduces (methods : Api3Methods) (fallback : String)
    (req : InboundRequest) (up : UpstreamResponse) (elapsed : String)
    (mn : String) (aps mps : List (String × Json))
    (hp : req.parsed = some (.obj [("method_name", .str mn),
      ("params", .arr [.obj aps, .obj mps])])) :
    ∃ hl, json_api methods fallback req up elapsed =
      api3_route methods fallback req up elapsed (.str mn) (.obj mps) hl
        (objGet mps "type") := by
  obtain ⟨hl, hhl⟩ := headline_obj_ok (.str mn) aps mps
  refine ⟨hl, ?_⟩
  have hm1 : List.lookup "method_name" [("method_name", Json.str mn),
      ("params", Json.arr [Json.obj aps, Json.obj mps])] = some (Json.str mn) := rfl
  have hm2 : List.lookup "params" [("method_name", Json.str mn),
      ("params", Json.arr [Json.obj aps, Json.obj mps])] =
      some (Json.arr [Json.obj aps, Json.obj mps]) := rfl
  unfold json_api
  rw [hp]
  show api3_payload methods fallback req up elapsed _ = _
  simp only [api3_payload, api3_envelope, hm1, hm2, api3_params,
    extractParams_pair, api3_headline, hhl]

theorem pyPop_of_present (d : Headers) (k : String)
    (h : d.any (fun kv => kv.1 = k) = true) :
    pyPop d k = some (d.filter fun kv => kv.1 ≠ k) := by
  simp [pyPop, h]

theorem pyPop_of_absent (d : Headers) (k : String)
    (h : d.any (fun kv => kv.1 = k) = false) :
    pyPop d k = none := by
  simp [pyPop, h]

/-- With a `Host` header present, `passthrough()` issues exactly one
outbound streaming `POST` of the original body to the fallback RPC URL, and
relays the upstream answer according to its status. -/
theorem passthrough_of_host (fallback : String) (req : InboundRequest)
    (up : UpstreamResponse)
    (hhost : (pyDict req.headers).any (fun kv => kv.1 = "Host") = true) :
    passthrough fallback req up = .ok (
      (if up.status = 200 then
        WireResult.streamed (stringChunks 8192 up.body) "application/json"
       else .tuple ⟨up.body, up.status, [("Content-Type", "application/json")]⟩),
      { httpMethod := "POST", url := fallback ++ "/api3/json",
        headers := (pyDict req.headers).filter fun kv => kv.1 ≠ "Host",
        data := req.data, params := [], stream := true }) := by
  unfold passthrough
  rw [pyPop_of_present _ _ hhost]
  by_cases h : up.status = 200 <;>
    simp [h, process_passthrough_response_eq]

/-! ## Claim C1 -/

/-- C1 (counterexample): the claim says a mapping with a present-but-short
`params` sequence (fewer than two elements) gets a `400` empty response with
nothing forwarded; on the code, the envelope
`\x7bmethod_name: "mystery", params: []\x7d` is padded with empty mappings,
dispatched, and (the method being unknown) forwarded to the upstream: the
result is not a 400-empty tuple and an outbound request is issued. -/
theorem C1_short_params_counterexample :
    (json_api (fun _ => none) "https://sg" shortParamsReq sampleUp200 "0.5").result ≠
      WireResult.tuple ⟨"", 400, []⟩ ∧
    (json_api (fun _ => none) "https://sg" shortParamsReq sampleUp200 "0.5").forwarded.isSome
      = true := by
  decide

/-- C1 (amended): a syntactically invalid body makes `json.loads` raise an
uncaught `ValueError` (no 400 response); a payload decoding to a mapping
that lacks `method_name` or lacks `params` — and likewise a payload that is
not a mapping — is answered `('', 400, [])` with no log line, no handler
invoked and nothing forwarded. -/
theorem C1_malformed_envelope_400 (methods : Api3Methods) (fallback : String)
    (req : InboundRequest) (up : UpstreamResponse) (elapsed : String) :
    (req.parsed = none →
      json_api methods fallback req up elapsed =
        uncaughtOutcome "ValueError" [] false none) ∧
    (∀ fields, req.parsed = some (.obj fields) →
      (fields.lookup "method_name" = none ∨ fields.lookup "params" = none) →
      json_api methods fallback req up elapsed = malformed400) ∧
    (∀ payload, req.parsed = some payload → (∀ fields, payload ≠ .obj fields) →
      json_api methods fallback req up elapsed = malformed400) := by
  refine ⟨?_, ?_, ?_⟩
  · intro h
    unfold json_api
    rw [h]
  · intro fields hp hmiss
    unfold json_api
    rw [hp]
    show api3_payload methods fallback req up elapsed (.obj fields) = malformed400
    simp only [api3_payload]
    unfold api3_envelope
    cases h1 : fields.lookup "method_name" <;> cases h2 : fields.lookup "params"
    · rfl
    · rfl
    · rfl
    · rcases hmiss with h | h
      · rw [h1] at h; cases h
      · rw [h2] at h; cases h
  · intro payload hp hnotobj
    unfold json_api
    rw [hp]
    show api3_payload methods fallback req up elapsed payload = malformed400
    cases payload <;> first | rfl | exact absurd rfl (hnotobj _)

/-- Witness for C1 (amended) at three concrete requests: an unparseable
body, a mapping without `method_name`, and a non-mapping payload. -/
theorem C1_malformed_envelope_400_witness :
    json_api (fun _ => none) "https://sg" invalidJsonReq sampleUp200 "0.5" =
      uncaughtOutcome "ValueError" [] false none ∧
    json_api (fun _ => none) "https://sg" missingMethodReq sampleUp200 "0.5" =
      malformed400 ∧
    json_api (fun _ => none) "https://sg" nonDictReq sampleUp200 "0.5" =
      malformed400 := by
  refine ⟨(C1_malformed_envelope_400 _ _ _ _ _).1 rfl,
    (C1_malformed_envelope_400 _ _ _ _ _).2.1 _ rfl (Or.inl rfl),
    (C1_malformed_envelope_400 _ _ _ _ _).2.2 _ rfl ?_⟩
  intro fields h
  cases h

/-! ## Claim C2 -/

/-- C2 (counterexample): the claim says the passthrough engine strips
hop-by-hop headers from the outbound request; on the code, an inbound
`Connection: keep-alive` (a hop-by-hop header) survives into the outbound
request untouched — only `Host` is removed. -/
theorem C2_hop_by_hop_counterexample :
    passthrough "https://sg" connectionHeaderReq sampleUp200 = .ok (
      .streamed ["UPSTREAM-BODY"] "application/json",
      { httpMethod := "POST", url := "https://sg/api3/json",
        headers := [("Connection", "keep-alive"), ("Accept", "application/json")],
        data := "BODY", params := [], stream := true }) ∧
    is_hop_by_hop_header "Connection" = true :=
  ⟨rfl, by decide⟩

/-- C2 (amended): the passthrough engine removes exactly the `Host` entry
from the outbound request headers — hop-by-hop headers are forwarded
unchanged — and on a 200 it relays the body as a streamed
`application/json` response of its own (upstream response headers are not
copied at all). -/
theorem C2_passthrough_strips_only_host (fallback : String)
    (req : InboundRequest) (up : UpstreamResponse)
    (hhost : (pyDict req.headers).any (fun kv => kv.1 = "Host") = true) :
    (passthrough fallback req up).map (fun p => p.2.headers) =
      .ok ((pyDict req.headers).filter fun kv => kv.1 ≠ "Host") ∧
    (up.status = 200 →
      (passthrough fallback req up).map (fun p => p.1) =
        .ok (.streamed (stringChunks 8192 up.body) "application/json")) := by
  rw [passthrough_of_host fallback req up hhost]
  constructor
  · rfl
  · intro h
    simp [h, Except.map]

/-- Witness for C2 (amended): on the concrete request with a `Connection`
header, the outbound headers are the inbound dict minus only `Host`, and the
200 body is relayed as one streamed chunk. -/
theorem C2_passthrough_strips_only_host_witness :
    (passthrough "https://sg" connectionHeaderReq sampleUp200).map
      (fun p => p.2.headers) =
      .ok [("Connection", "keep-alive"), ("Accept", "application/json")] ∧
    (passthrough "https://sg" connectionHeaderReq sampleUp200).map (fun p => p.1) =
      .ok (.streamed ["UPSTREAM-BODY"] "application/json") := by
  have h := C2_passthrough_strips_only_host "https://sg" connectionHeaderReq
    sampleUp200 (by decide)
  refine ⟨?_, ?_⟩
  · rw [h.1]
    rfl
  · rw [h.2 rfl]
    rfl

/-! ## Claim C10 -/

/-- C10: `passthrough()` pops `Host` from the inbound header dict with no
default, so with a `Host` header present the engine always produces a
response (the `KeyError` branch is unreachable), while without one the
`KeyError` propagates before any upstream call is issued (the model yields
no outbound request in that case). -/
theorem C10_host_removal_totality (fallback : String) (req : InboundRequest)
    (up : UpstreamResponse) :
    ((pyDict req.headers).any (fun kv => kv.1 = "Host") = true →
      ∃ w out, passthrough fallback req up = .ok (w, out)) ∧
    ((pyDict req.headers).any (fun kv => kv.1 = "Host") = false →
      passthrough fallback req up = .error "KeyError") := by
  constructor
  · intro h
    exact ⟨_, _, passthrough_of_host fallback req up h⟩
  · intro h
    unfold passthrough
    rw [pyPop_of_absent _ _ h]

/-- Witness for C10 at two concrete requests: one with a `Host` header
(passthrough succeeds) and one without (it raises `KeyError`). -/
theorem C10_host_removal_totality_witness :
    (∃ w out, passthrough "https://sg" findShotReq sampleUp200 = .ok (w, out)) ∧
    passthrough "https://sg" noHostReq sampleUp200 = .error "KeyError" :=
  ⟨(C10_host_removal_totality "https://sg" findShotReq sampleUp200).1 (by decide),
   (C10_host_removal_totality "https://sg" noHostReq sampleUp200).2 (by decide)⟩

/-! ## Claim C3 -/

/-- C3: a registered handler raising `Fault(code, message)` is answered
`200` with content-type `application/json` and body exactly the JSON dump
of `\x7b"exception": true, "error_code": code, "message": message\x7d`;
nothing is forwarded to the upstream, and a warning-level log line with the
fault class name, code and message is emitted. -/
theorem C3_fault_translated (methods : Api3Methods) (fallback : String)
    (req : InboundRequest) (up : UpstreamResponse) (elapsed : String)
    (mn className message : String) (code : Int)
    (aps mps : List (String × Json)) (handler : Handler)
    (hp : req.parsed = some (.obj [("method_name", .str mn),
      ("params", .arr [.obj aps, .obj mps])]))
    (hreg : methods mn = some handler)
    (hfault : handler (.obj mps) = .raiseFault className code message) :
    (json_api methods fallback req up elapsed).result =
      .tuple ⟨(Json.obj [("exception", .bool true), ("error_code", .num code),
        ("message", .str message)]).dumps, 200,
        [("Content-Type", "application/json")]⟩ ∧
    (json_api methods fallback req up elapsed).forwarded = none ∧
    LogEvent.warning (className ++ " (" ++ toString code ++ "): " ++ message) ∈
      (json_api methods fallback req up elapsed).logs := by
  obtain ⟨hl, hred⟩ := json_api_reduces methods fallback req up elapsed mn aps mps hp
  rw [hred]
  unfold api3_route
  simp only [registryLookup, hreg]
  unfold api3_invoke
  rw [hfault]
  simp [finishRequest, timingLog, List.lookup, pure, Except.pure]

/-- Witness for C3: `Fault(42, "bad state")` raised by method `op` yields
exactly the documented JSON error body, no forwarding, and the warning
line `Fault (42): bad state`. -/
theorem C3_fault_translated_witness :
    (json_api faultMethods "https://sg" faultReq sampleUp200 "0.5").result =
      .tuple ⟨"\x7b\"exception\": true, \"error_code\": 42, \"message\": \"bad state\"\x7d",
        200, [("Content-Type", "application/json")]⟩ ∧
    (json_api faultMethods "https://sg" faultReq sampleUp200 "0.5").forwarded = none ∧
    LogEvent.warning "Fault (42): bad state" ∈
      (json_api faultMethods "https://sg" faultReq sampleUp200 "0.5").logs := by
  have h := C3_fault_translated faultMethods "https://sg" faultReq sampleUp200 "0.5"
    "op" "Fault" "bad state" 42 [("script_name", Json.str "s1")]
    [("type", Json.str "Asset")] (fun _ => .raiseFault "Fault" 42 "bad state")
    rfl rfl rfl
  refine ⟨?_, h.2.1, ?_⟩
  · rw [h.1]
    decide
  · exact h.2.2

/-! ## Claim C4 -/

/-- C4: a registered handler raising `PassthroughSignal(reason)` makes the
gateway answer with exactly the response of invoking the passthrough engine
directly on the original request (the local partial result is discarded:
the outcome is the passthrough wire result and outbound request alone), and
an info log records the method name, the signal class name and reason, and
— exactly when `method_params` is non-empty — a pretty-printed key-sorted
JSON dump of `method_params`. -/
theorem C4_passthrough_signal (methods : Api3Methods) (fallback : String)
    (req : InboundRequest) (up : UpstreamResponse) (elapsed : String)
    (mn className reason : String)
    (aps mps : List (String × Json)) (handler : Handler) (w : WireResult)
    (out : OutboundRequest)
    (hp : req.parsed = some (.obj [("method_name", .str mn),
      ("params", .arr [.obj aps, .obj mps])]))
    (hreg : methods mn = some handler)
    (hsig : handler (.obj mps) = .raisePassthrough className reason)
    (hpt : passthrough fallback req up = .ok (w, out)) :
    (json_api methods fallback req up elapsed).result = w ∧
    (json_api methods fallback req up elapsed).forwarded = some out ∧
    LogEvent.info ("Passing through " ++ mn ++ " due to " ++ className ++
      "(\"" ++ reason ++ "\"):" ++
      (if mps.isEmpty then "" else "\n" ++ (Json.obj mps).dumpsPretty)) ∈
      (json_api methods fallback req up elapsed).logs := by
  obtain ⟨hl, hred⟩ := json_api_reduces methods fallback req up elapsed mn aps mps hp
  rw [hred]
  unfold api3_route
  simp only [registryLookup, hreg]
  unfold api3_invoke
  rw [hsig, hpt]
  refine ⟨?_, ?_, ?_⟩
  · simp [finishRequest, timingLog, pure, Except.pure]
  · simp [finishRequest, timingLog, pure, Except.pure]
  · simp only [finishRequest, timingLog, pure, Except.pure, Json.pyStr, Json.truthy]
    cases mps with
    | nil =>
      simp [List.mem_cons, String.append_empty]
    | cons f rest =>
      simp [List.mem_cons, String.append_assoc,
        str_merge "\"):" "\n" "\"):\n" (by decide)]

/-- Witness for C4: `Passthrough("unsupported filter")` raised by method
`op` makes the gateway return the upstream relay itself, forward the
original body upstream, and log the signal with the pretty dump of
`\x7btype: Asset\x7d`. -/
theorem C4_passthrough_signal_witness :
    (json_api signalMethods "https://sg" faultReq sampleUp200 "0.5").result =
      .streamed ["UPSTREAM-BODY"] "application/json" ∧
    (json_api signalMethods "https://sg" faultReq sampleUp200 "0.5").forwarded =
      some (OutboundRequest.mk "POST" "https://sg/api3/json" [] "BODY" [] true) ∧
    LogEvent.info ("Passing through op due to Passthrough(\"unsupported filter\"):\n" ++
      "\x7b\n    \"type\": \"Asset\"\n\x7d") ∈
      (json_api signalMethods "https://sg" faultReq sampleUp200 "0.5").logs := by
  have h := C4_passthrough_signal signalMethods "https://sg" faultReq sampleUp200 "0.5"
    "op" "Passthrough" "unsupported filter" [("script_name", Json.str "s1")]
    [("type", Json.str "Asset")]
    (fun _ => .raisePassthrough "Passthrough" "unsupported filter")
    (.streamed ["UPSTREAM-BODY"] "application/json")
    (OutboundRequest.mk "POST" "https://sg/api3/json" [] "BODY" [] true)
    rfl rfl rfl rfl
  exact ⟨h.1, h.2.1, h.2.2⟩

/-! ## Claim C5 -/

/-- C5: an envelope whose method name is absent from the registry is not an
error: no handler is invoked, the engine forwards it, and the outbound
request it constructs equals the request a client would send to the
upstream `/api3/json` endpoint directly (`directClientRequest`, modelled
from the spec); the unknown-method info line is logged. -/
theorem C5_unknown_method_forwarded (methods : Api3Methods) (fallback : String)
    (req : InboundRequest) (up : UpstreamResponse) (elapsed : String)
    (mn : String) (aps mps : List (String × Json))
    (hp : req.parsed = some (.obj [("method_name", .str mn),
      ("params", .arr [.obj aps, .obj mps])]))
    (hreg : methods mn = none)
    (hhost : (pyDict req.headers).any (fun kv => kv.1 = "Host") = true) :
    (json_api methods fallback req up elapsed).invoked = false ∧
    (json_api methods fallback req up elapsed).forwarded =
      some (directClientRequest fallback req.headers req.data) ∧
    LogEvent.info ("Passing through \"" ++ mn ++ "\" due to unknown API method") ∈
      (json_api methods fallback req up elapsed).logs := by
  obtain ⟨hl, hred⟩ := json_api_reduces methods fallback req up elapsed mn aps mps hp
  rw [hred]
  unfold api3_route
  simp only [registryLookup, hreg]
  rw [passthrough_of_host fallback req up hhost]
  simp [directClientRequest, Json.pyStr]

/-- Witness for C5: the unknown method `find` on a concrete request is
forwarded with an outbound request equal to the direct client request. -/
theorem C5_unknown_method_forwarded_witness :
    (json_api (fun _ => none) "https://sg" findShotReq sampleUp200 "0.5").invoked
      = false ∧
    (json_api (fun _ => none) "https://sg" findShotReq sampleUp200 "0.5").forwarded =
      some (directClientRequest "https://sg" findShotReq.headers findShotReq.data) ∧
    LogEvent.info "Passing through \"find\" due to unknown API method" ∈
      (json_api (fun _ => none) "https://sg" findShotReq sampleUp200 "0.5").logs := by
  have h := C5_unknown_method_forwarded (fun _ => none) "https://sg" findShotReq
    sampleUp200 "0.5" "find" [("script_name", Json.str "s1")]
    [("type", Json.str "Shot")] rfl rfl (by decide)
  exact ⟨h.1, h.2.1, h.2.2⟩

/-! ## Claim C9 -/

/-- C9: the forwarding decision and the constructed outbound request for an
unknown-method envelope are a deterministic function of the inbound request
alone: each submission forwards an outbound request equal to the direct
client request, independent of the upstream answer or measured time of any
run — there is no hidden caching of passthrough decisions between two
identical submissions. -/
theorem C9_forwarding_deterministic (methods : Api3Methods) (fallback : String)
    (req : InboundRequest) (up1 up2 : UpstreamResponse) (e1 e2 : String)
    (mn : String) (aps mps : List (String × Json))
    (hp : req.parsed = some (.obj [("method_name", .str mn),
      ("params", .arr [.obj aps, .obj mps])]))
    (hreg : methods mn = none)
    (hhost : (pyDict req.headers).any (fun kv => kv.1 = "Host") = true) :
    (json_api methods fallback req up1 e1).forwarded =
      some (directClientRequest fallback req.headers req.data) ∧
    (json_api methods fallback req up2 e2).forwarded =
      (json_api methods fallback req up1 e1).forwarded := by
  obtain ⟨hl1, hred1⟩ := json_api_reduces methods fallback req up1 e1 mn aps mps hp
  obtain ⟨hl2, hred2⟩ := json_api_reduces methods fallback req up2 e2 mn aps mps hp
  rw [hred1, hred2]
  unfold api3_route
  simp only [registryLookup, hreg]
  rw [passthrough_of_host fallback req up1 hhost,
    passthrough_of_host fallback req up2 hhost]
  simp [directClientRequest]

/-- Witness for C9: two runs of the identical unknown-method request against
different upstream answers and different measured times forward the same
outbound request. -/
theorem C9_forwarding_deterministic_witness :
    (json_api (fun _ => none) "https://sg" findShotReq sampleUp200 "0.1").forwarded =
      some (directClientRequest "https://sg" findShotReq.headers findShotReq.data) ∧
    (json_api (fun _ => none) "https://sg" findShotReq sampleUp500 "0.2").forwarded =
      (json_api (fun _ => none) "https://sg" findShotReq sampleUp200 "0.1").forwarded :=
  C9_forwarding_deterministic (fun _ => none) "https://sg" findShotReq sampleUp200
    sampleUp500 "0.1" "0.2" "find" [("script_name", Json.str "s1")]
    [("type", Json.str "Shot")] rfl rfl (by decide)

/-! ## Claim C6 -/

/-- C6: the binary proxy targets the fallback base plus the unchanged
request path, forwards the HTTP method and query parameters unchanged,
forwards the request headers minus `Host` (case-insensitively) and minus
the standard hop-by-hop set, and relays the upstream status and headers
unchanged except hop-by-hop removal, with the body streamed in chunks of at
most 8192 characters that concatenate back to the upstream body, in
direct-passthrough mode. -/
theorem C6_binary_proxy (fallback : String) (req : InboundRequest)
    (up : UpstreamResponse)
    (hnd : (req.headers.map Prod.fst).Nodup) :
    (proxy fallback req up).1.url = fallback ++ req.path ∧
    (proxy fallback req up).1.httpMethod = req.httpMethod ∧
    (proxy fallback req up).1.params = req.args ∧
    (proxy fallback req up).1.headers =
      req.headers.filter (fun kv =>
        !(strToLower kv.1 == "host") && !is_hop_by_hop_header kv.1) ∧
    (proxy fallback req up).2.status = up.status ∧
    (proxy fallback req up).2.headers =
      up.headers.filter (fun kv => !is_hop_by_hop_header kv.1) ∧
    (proxy fallback req up).2.directPassthrough = true ∧
    ((proxy fallback req up).2.chunks.map String.toList).flatten = up.body.toList ∧
    ∀ c ∈ (proxy fallback req up).2.chunks, c.length ≤ 8192 := by
  refine ⟨rfl, rfl, rfl, ?_, rfl, rfl, rfl, ?_, ?_⟩
  · show pyDict (remove_hop_by_hop_headers
      (req.headers.filter fun kv => strToLower kv.1 ≠ "host")) = _
    unfold remove_hop_by_hop_headers
    rw [List.filter_filter]
    rw [pyDict_of_nodup]
    · congr 1
      funext kv
      simp only [ne_eq, decide_not, Bool.and_comm]
      rfl
    · exact hnd.sublist ((List.filter_sublist _).map Prod.fst)
  · exact stringChunks_flatten 8192 (by decide) up.body
  · exact stringChunks_length_le 8192 up.body

/-- Witness for C6: a concrete `POST /upload/attachment.bin` with a
`Transfer-Encoding` request header against a 201 upstream whose response
carries a hop-by-hop header. -/
theorem C6_binary_proxy_witness :
    (proxy "https://sg" uploadReq binaryUp).1.url =
      "https://sg/upload/attachment.bin" ∧
    (proxy "https://sg" uploadReq binaryUp).1.params =
      [("filename", "attachment.bin")] ∧
    (proxy "https://sg" uploadReq binaryUp).1.headers = [("X-Custom", "yes")] ∧
    (proxy "https://sg" uploadReq binaryUp).2.status = 201 ∧
    (proxy "https://sg" uploadReq binaryUp).2.headers =
      [("Content-Type", "application/octet-stream"), ("X-Extra", "1")] ∧
    (proxy "https://sg" uploadReq binaryUp).2.chunks = ["PAYLOAD"] := by
  have h := C6_binary_proxy "https://sg" uploadReq binaryUp (by decide)
  refine ⟨h.1.trans (by decide), (h.2.2.1).trans (by decide),
    (h.2.2.2.1).trans (by decide), (h.2.2.2.2.1).trans (by decide),
    (h.2.2.2.2.2.1).trans (by decide), by decide⟩

/-! ## Claim C7 -/

/-- C7: with a `Host` header present, a 200 upstream answer is relayed as a
streamed `application/json` response whose chunks are the 8192-character
pieces of the upstream body (each chunk also captured unchanged by the
analysis-hook buffer, and the chunks concatenating back to the body); any
other status is relayed as a single non-streamed tuple carrying the exact
upstream text and status with content-type `application/json`. -/
theorem C7_passthrough_relay (fallback : String) (req : InboundRequest)
    (up : UpstreamResponse)
    (hhost : (pyDict req.headers).any (fun kv => kv.1 = "Host") = true) :
    (up.status = 200 →
      (passthrough fallback req up).map Prod.fst =
        .ok (.streamed (stringChunks 8192 up.body) "application/json") ∧
      process_passthrough_response (stringChunks 8192 up.body) =
        (stringChunks 8192 up.body, stringChunks 8192 up.body) ∧
      ((stringChunks 8192 up.body).map String.toList).flatten = up.body.toList ∧
      ∀ c ∈ stringChunks 8192 up.body, c.length ≤ 8192) ∧
    (up.status ≠ 200 →
      (passthrough fallback req up).map Prod.fst =
        .ok (.tuple ⟨up.body, up.status, [("Content-Type", "application/json")]⟩)) := by
  constructor
  · intro h
    refine ⟨?_, process_passthrough_response_eq _,
      stringChunks_flatten 8192 (by decide) up.body,
      stringChunks_length_le 8192 up.body⟩
    rw [passthrough_of_host fallback req up hhost]
    simp [h, Except.map]
  · intro h
    rw [passthrough_of_host fallback req up hhost]
    simp [h, Except.map]

/-- Witness for C7: the 200 upstream body is streamed as one chunk and
captured unchanged; the 500 upstream answer comes back as a single tuple
with its exact text. -/
theorem C7_passthrough_relay_witness :
    (passthrough "https://sg" findShotReq sampleUp200).map Prod.fst =
      .ok (.streamed ["UPSTREAM-BODY"] "application/json") ∧
    process_passthrough_response ["UPSTREAM-BODY"] =
      (["UPSTREAM-BODY"], ["UPSTREAM-BODY"]) ∧
    (passthrough "https://sg" findShotReq sampleUp500).map Prod.fst =
      .ok (.tuple ⟨"upstream error", 500, [("Content-Type", "application/json")]⟩) := by
  have h1 := (C7_passthrough_relay "https://sg" findShotReq sampleUp200 (by decide)).1 rfl
  have h2 := (C7_passthrough_relay "https://sg" findShotReq sampleUp500 (by decide)).2
    (by decide)
  exact ⟨h1.1, h1.2.1, h2⟩

/-! ## Claim C8 -/

/-- C8: for every well-formed envelope the headline equals the
concatenation: always `Starting \x7bmethod_name\x7d`; then
` on \x7bentity_type\x7d` when `method_params` has a truthy `type`; then,
when `auth_params` has a truthy `script_name`,
` by script "\x7bscript_name\x7d"` followed by
` as user "\x7bsudo_as_login\x7d"` when `sudo_as_login` is truthy,
otherwise ` by user "\x7buser_login\x7d"` when `user_login` is truthy.  In
particular, for the C8 example inputs the headline is exactly
`Starting find on Shot by script "s1" as user "bob"`. -/
theorem C8_headline_format :
    (∀ (mn : String) (aps mps : List (String × Json)),
      headline (.str mn) (.obj aps) (.obj mps) = .ok (
        "Starting " ++ mn ++
        (if (objGet mps "type").truthy then " on " ++ (objGet mps "type").pyStr
         else "") ++
        (if (objGet aps "script_name").truthy then
          " by script \"" ++ (objGet aps "script_name").pyStr ++ "\"" ++
            (if (objGet aps "sudo_as_login").truthy then
              " as user \"" ++ (objGet aps "sudo_as_login").pyStr ++ "\""
             else "")
         else
          (if (objGet aps "user_login").truthy then
            " by user \"" ++ (objGet aps "user_login").pyStr ++ "\""
           else "")),
        objGet mps "type")) ∧
    headline (.str "find")
      (.obj [("script_name", .str "s1"), ("sudo_as_login", .str "bob")])
      (.obj [("type", .str "Shot")]) =
      .ok ("Starting find on Shot by script \"s1\" as user \"bob\"", .str "Shot") := by
  constructor
  · intro mn aps mps
    unfold headline
    simp only [Json.pyGet, bind, Except.bind, pure, Except.pure, objGet, Json.pyStr]
    cases h1 : (List.lookup "type" mps |>.getD .null).truthy <;>
      cases h2 : (List.lookup "script_name" aps |>.getD .null).truthy <;>
        cases h3 : (List.lookup "sudo_as_login" aps |>.getD .null).truthy <;>
          cases h4 : (List.lookup "user_login" aps |>.getD .null).truthy <;>
            simp only [h1, h2, h3, h4, if_true, if_false, Bool.false_eq_true,
              String.intercalate, List.cons_append, List.nil_append,
              intercalate_go_cons, intercalate_go_nil,
              Except.ok.injEq, Prod.mk.injEq, String.append_assoc,
              String.append_empty, and_true, true_and,
              str_merge " " "on " " on " (by decide),
              str_merge " " "by script \"" " by script \"" (by decide),
              str_merge " " "as user \"" " as user \"" (by decide),
              str_merge " " "by user \"" " by user \"" (by decide)]
  · rfl

end SgCache
